import Mathlib

/-!
Shallow embedding of `src/framework/components/light/component.js`
(`pc.LightComponent`): the property-change handlers, `refreshProperties`,
`onSetType`, the mask-bit toggle handlers and the enable/disable
lifecycle.

Conventions of the embedding:
* JS numbers carrying light parameters are embedded as rationals
  (exact arithmetic).
* JS 32-bit bitwise operators are embedded on `Nat` with explicit
  truncation modulo `2 ^ 32`; an int32 is represented by its unsigned
  bit pattern.
* Calls made on the collaborators (the render light object's setters,
  the owning system's `changeType`, the scene's `addModel` /
  `removeModel`) are recorded in a trace, in order.
-/

namespace Engine

/-- Modelled from the spec: the constants `pc.MASK_DYNAMIC`,
`pc.MASK_BAKED` and `pc.MASK_LIGHTMAP` are defined outside this file;
per the spec each of the three toggle booleans owns one bit in a shared
mask integer, so the three constants are embedded as distinct
single-bit masks. -/
def MASK_DYNAMIC : Nat := 1

/-- Modelled from the spec: see `MASK_DYNAMIC`. -/
def MASK_BAKED : Nat := 2

/-- Modelled from the spec: see `MASK_DYNAMIC`. -/
def MASK_LIGHTMAP : Nat := 4

/-- Low 32 bits of a natural number: the unsigned bit pattern the JS
bitwise operators work on. -/
def toU32 (n : Nat) : Nat := n % 2 ^ 32

/-- JS `m | M` on the unsigned bit pattern. -/
def jsOr (m M : Nat) : Nat := toU32 m ||| toU32 M

/-- JS `m & ~M` on the unsigned bit pattern. -/
def jsAndNot (m M : Nat) : Nat := toU32 m &&& ((2 ^ 32 - 1) ^^^ toU32 M)

/-- The component's stored property set (`this.data` together with the
stored property accessors the handlers read).  The color is a reference
to a `pc.Color` object and is embedded as an opaque handle; the model
owned by the component (`this.data.model`) is an optional opaque
handle. -/
structure LightData where
  type : String
  castShadows : Bool
  color : Nat
  intensity : ℚ
  shadowDistance : ℚ
  shadowResolution : Nat
  shadowBias : ℚ
  normalOffsetBias : ℚ
  range : ℚ
  innerConeAngle : ℚ
  outerConeAngle : ℚ
  falloffMode : Nat
  shadowType : Nat
  shadowUpdateMode : Nat
  mask : Nat
  affectDynamic : Bool
  affectLightmapped : Bool
  bake : Bool
  model : Option Nat
deriving DecidableEq

/-- One observable call made by the component on its collaborators: the
render light object's setters, the owning system's `changeType`, and
the scene's `addModel` / `removeModel`. -/
inductive Call where
  | setCastShadows (v : Bool)
  | setColor (v : Nat)
  | setIntensity (v : ℚ)
  | setShadowDistance (v : ℚ)
  | setShadowResolution (v : Nat)
  | setShadowBias (v : ℚ)
  | setNormalOffsetBias (v : ℚ)
  | setAttenuationEnd (v : ℚ)
  | setInnerConeAngle (v : ℚ)
  | setOuterConeAngle (v : ℚ)
  | setFalloffMode (v : Nat)
  | setShadowType (v : Nat)
  | setMask (v : Nat)
  | setEnabled (v : Bool)
  | changeType (oldType newType : String)
  | addModel (m : Nat)
  | removeModel (m : Nat)
deriving DecidableEq

/-- The component's world state: the stored data, the `this.lightMap`
and `this.baked` flags read by the mask toggles, the enabled flags of
the component and of its owning entity, the render light object's
mutable state (`mask`, the `shadowUpdateMode` field, enabled), the
scene's model list, and the trace of collaborator calls in order. -/
structure St where
  data : LightData
  lightMap : Bool
  baked : Bool
  enabled : Bool
  entityEnabled : Bool
  lightMask : Nat
  lightShadowUpdateMode : Nat
  lightEnabled : Bool
  scene : List Nat
  calls : List Call
deriving DecidableEq

/-- Record a collaborator call in the trace. -/
def emit (s : St) (c : Call) : St := { s with calls := s.calls ++ [c] }

def onSetCastShadows (s : St) (_oldValue newValue : Bool) : St :=
  emit s (.setCastShadows newValue)

def onSetColor (s : St) (_oldValue newValue : Nat) : St :=
  emit s (.setColor newValue)

def onSetIntensity (s : St) (_oldValue newValue : ℚ) : St :=
  emit s (.setIntensity newValue)

def onSetShadowDistance (s : St) (_oldValue newValue : ℚ) : St :=
  if s.data.type ≠ "directional" then s
  else emit s (.setShadowDistance newValue)

def onSetShadowResolution (s : St) (_oldValue newValue : Nat) : St :=
  emit s (.setShadowResolution newValue)

def onSetShadowBias (s : St) (_oldValue newValue : ℚ) : St :=
  emit s (.setShadowBias (-0.01 * newValue))

def onSetNormalOffsetBias (s : St) (_oldValue newValue : ℚ) : St :=
  emit s (.setNormalOffsetBias newValue)

def onSetRange (s : St) (_oldValue newValue : ℚ) : St :=
  if s.data.type ≠ "point" ∧ s.data.type ≠ "spot" then s
  else emit s (.setAttenuationEnd newValue)

def onSetInnerConeAngle (s : St) (_oldValue newValue : ℚ) : St :=
  if s.data.type ≠ "spot" then s
  else emit s (.setInnerConeAngle newValue)

def onSetOuterConeAngle (s : St) (_oldValue newValue : ℚ) : St :=
  if s.data.type ≠ "spot" then s
  else emit s (.setOuterConeAngle newValue)

def onSetFalloffMode (s : St) (_oldValue newValue : Nat) : St :=
  if s.data.type ≠ "point" ∧ s.data.type ≠ "spot" then s
  else emit s (.setFalloffMode newValue)

def onSetShadowType (s : St) (_oldValue newValue : Nat) : St :=
  emit s (.setShadowType newValue)

/-- `this.light.shadowUpdateMode = newValue`: a plain field write on the
render light object, not a setter call. -/
def onSetShadowUpdateMode (s : St) (_oldValue newValue : Nat) : St :=
  { s with lightShadowUpdateMode := newValue }

/-- Modelled from the spec: the render light object's `setMask` setter
is defined outside this file; the spec lists it among the setters the
handlers unconditionally forward the new value to, and gives the light
a mutable `mask` field, so `setMask` stores the forwarded value in that
field (and the call is recorded). -/
def lightSetMask (s : St) (v : Nat) : St :=
  emit { s with lightMask := v } (.setMask v)

def onSetMask (s : St) (_oldValue newValue : Nat) : St :=
  lightSetMask s newValue

def onSetAffectDynamic (s : St) (oldValue newValue : Bool) : St :=
  let s :=
    if !oldValue && newValue then
      { s with lightMask := jsOr s.lightMask MASK_DYNAMIC }
    else if oldValue && !newValue then
      { s with lightMask := jsAndNot s.lightMask MASK_DYNAMIC }
    else s
  lightSetMask s s.lightMask

def onSetaffectLightmapped (s : St) (oldValue newValue : Bool) : St :=
  let s :=
    if !oldValue && newValue then
      let s := { s with lightMask := jsOr s.lightMask MASK_BAKED }
      if s.lightMap then { s with lightMask := jsAndNot s.lightMask MASK_LIGHTMAP }
      else s
    else if oldValue && !newValue then
      let s := { s with lightMask := jsAndNot s.lightMask MASK_BAKED }
      if s.lightMap then { s with lightMask := jsOr s.lightMask MASK_LIGHTMAP }
      else s
    else s
  lightSetMask s s.lightMask

def onSetBake (s : St) (oldValue newValue : Bool) : St :=
  let s :=
    if !oldValue && newValue then
      let s := { s with lightMask := jsOr s.lightMask MASK_LIGHTMAP }
      if s.baked then { s with lightMask := jsAndNot s.lightMask MASK_BAKED }
      else s
    else if oldValue && !newValue then
      let s := { s with lightMask := jsAndNot s.lightMask MASK_LIGHTMAP }
      if s.baked then { s with lightMask := jsOr s.lightMask MASK_BAKED }
      else s
    else s
  lightSetMask s s.lightMask

/-- Modelled from the spec: `scene.containsModel` is membership in the
scene's model list. -/
def containsModel (scene : List Nat) (m : Nat) : Bool := scene.contains m

/-- `onEnable`: mark the render light enabled; if the component owns a
model that the scene does not already contain, add it.  The base-class
`onEnable` hook is outside this file and has no state observable
here. -/
def onEnable (s : St) : St :=
  let s := emit { s with lightEnabled := true } (.setEnabled true)
  match s.data.model with
  | none => s
  | some model =>
      if containsModel s.scene model then s
      else emit { s with scene := s.scene ++ [model] } (.addModel model)

/-- `onDisable`: mark the render light disabled; if the component owns a
model, call the scene's `removeModel` on it (no containment check in
the component).  Modelled from the spec: the scene's `removeModel` is
outside this file; its effect on the model list is embedded as erasing
the model if present. -/
def onDisable (s : St) : St :=
  let s := emit { s with lightEnabled := false } (.setEnabled false)
  match s.data.model with
  | none => s
  | some model =>
      emit { s with scene := s.scene.erase model } (.removeModel model)

/-- The seventeen per-property re-invocations of `refreshProperties`,
each with old = new = the currently stored value, in source order. -/
def refreshSets (s : St) : St :=
  let s := onSetCastShadows s s.data.castShadows s.data.castShadows
  let s := onSetColor s s.data.color s.data.color
  let s := onSetIntensity s s.data.intensity s.data.intensity
  let s := onSetShadowDistance s s.data.shadowDistance s.data.shadowDistance
  let s := onSetShadowResolution s s.data.shadowResolution s.data.shadowResolution
  let s := onSetShadowBias s s.data.shadowBias s.data.shadowBias
  let s := onSetNormalOffsetBias s s.data.normalOffsetBias s.data.normalOffsetBias
  let s := onSetRange s s.data.range s.data.range
  let s := onSetInnerConeAngle s s.data.innerConeAngle s.data.innerConeAngle
  let s := onSetOuterConeAngle s s.data.outerConeAngle s.data.outerConeAngle
  let s := onSetFalloffMode s s.data.falloffMode s.data.falloffMode
  let s := onSetShadowType s s.data.shadowType s.data.shadowType
  let s := onSetShadowUpdateMode s s.data.shadowUpdateMode s.data.shadowUpdateMode
  let s := onSetMask s s.data.mask s.data.mask
  let s := onSetAffectDynamic s s.data.affectDynamic s.data.affectDynamic
  let s := onSetaffectLightmapped s s.data.affectLightmapped s.data.affectLightmapped
  let s := onSetBake s s.data.bake s.data.bake
  s

/-- `refreshProperties`: re-invoke every per-property handler with
old = new = the currently stored value, in source order, then trigger
the enable path when both the component and its entity are enabled. -/
def refreshProperties (s : St) : St :=
  let s := refreshSets s
  if s.enabled && s.entityEnabled then onEnable s else s

/-- `onSetType`: on an actual change, delegate to the owning system's
`changeType` and then re-apply all properties.  Modelled from the spec:
`system.changeType` swaps the underlying render light object at
system level; its effect on the render light's internal state is
outside this file and only the call itself is recorded. -/
def onSetType (s : St) (oldValue newValue : String) : St :=
  if oldValue = newValue then s
  else refreshProperties (emit s (.changeType oldValue newValue))

/-- The calls one full `refreshProperties` pass appends before the
enable step, computed from the stored data. -/
def refreshCallList (s : St) : List Call :=
  [.setCastShadows s.data.castShadows,
   .setColor s.data.color,
   .setIntensity s.data.intensity] ++
  (if s.data.type ≠ "directional" then []
   else [.setShadowDistance s.data.shadowDistance]) ++
  [.setShadowResolution s.data.shadowResolution,
   .setShadowBias (-0.01 * s.data.shadowBias),
   .setNormalOffsetBias s.data.normalOffsetBias] ++
  (if s.data.type ≠ "point" ∧ s.data.type ≠ "spot" then []
   else [.setAttenuationEnd s.data.range]) ++
  (if s.data.type ≠ "spot" then []
   else [.setInnerConeAngle s.data.innerConeAngle,
         .setOuterConeAngle s.data.outerConeAngle]) ++
  (if s.data.type ≠ "point" ∧ s.data.type ≠ "spot" then []
   else [.setFalloffMode s.data.falloffMode]) ++
  [.setShadowType s.data.shadowType,
   .setMask s.data.mask, .setMask s.data.mask,
   .setMask s.data.mask, .setMask s.data.mask]

/-- The calls one `onEnable` appends from state `s`. -/
def enableCalls (s : St) : List Call :=
  .setEnabled true ::
    (match s.data.model with
     | none => []
     | some m => if containsModel s.scene m then [] else [.addModel m])

set_option maxHeartbeats 1000000 in
/-- The seventeen re-invocations amount to pushing the stored mask and
shadow-update mode to the render light and appending `refreshCallList`. -/
theorem refreshSets_eq (s : St) :
    refreshSets s =
      { s with lightMask := s.data.mask,
               lightShadowUpdateMode := s.data.shadowUpdateMode,
               calls := s.calls ++ refreshCallList s } := by
  by_cases hd : s.data.type = "directional" <;>
  by_cases hp : s.data.type = "point" <;>
  by_cases hs : s.data.type = "spot" <;>
    simp [refreshSets, refreshCallList, onSetCastShadows, onSetColor,
      onSetIntensity, onSetShadowDistance, onSetShadowResolution, onSetShadowBias,
      onSetNormalOffsetBias, onSetRange, onSetInnerConeAngle, onSetOuterConeAngle,
      onSetFalloffMode, onSetShadowType, onSetShadowUpdateMode, onSetMask,
      onSetAffectDynamic, onSetaffectLightmapped, onSetBake, lightSetMask, emit,
      hd, hp, hs]

theorem onEnable_calls (t : St) : (onEnable t).calls = t.calls ++ enableCalls t := by
  unfold onEnable enableCalls
  cases hm : t.data.model
  case none => simp [emit, hm]
  case some m => by_cases hc : containsModel t.scene m <;> simp [emit, hm, hc]

theorem onEnable_data (t : St) : (onEnable t).data = t.data := by
  unfold onEnable
  cases hm : t.data.model
  case none => simp [emit, hm]
  case some m => by_cases hc : containsModel t.scene m <;> simp [emit, hm, hc]

theorem onEnable_lightMask (t : St) : (onEnable t).lightMask = t.lightMask := by
  unfold onEnable
  cases hm : t.data.model
  case none => simp [emit, hm]
  case some m => by_cases hc : containsModel t.scene m <;> simp [emit, hm, hc]

theorem onEnable_lightEnabled (t : St) : (onEnable t).lightEnabled = true := by
  unfold onEnable
  cases hm : t.data.model
  case none => simp [emit, hm]
  case some m => by_cases hc : containsModel t.scene m <;> simp [emit, hm, hc]

theorem onEnable_scene (t : St) :
    (onEnable t).scene =
      t.scene ++
        (match t.data.model with
         | none => []
         | some m => if containsModel t.scene m then [] else [m]) := by
  unfold onEnable
  cases hm : t.data.model
  case none => simp [emit, hm]
  case some m => by_cases hc : containsModel t.scene m <;> simp [emit, hm, hc]

/-- The full effect of `refreshProperties`. -/
theorem refresh_eq (s : St) :
    refreshProperties s =
      (if s.enabled && s.entityEnabled then
        onEnable { s with lightMask := s.data.mask,
                          lightShadowUpdateMode := s.data.shadowUpdateMode,
                          calls := s.calls ++ refreshCallList s }
      else { s with lightMask := s.data.mask,
                    lightShadowUpdateMode := s.data.shadowUpdateMode,
                    calls := s.calls ++ refreshCallList s }) := by
  unfold refreshProperties
  rw [refreshSets_eq]

theorem refresh_calls (s : St) :
    (refreshProperties s).calls =
      s.calls ++ refreshCallList s ++
        (if s.enabled && s.entityEnabled then enableCalls s else []) := by
  rw [refresh_eq]
  by_cases he : s.enabled && s.entityEnabled <;>
    simp [he, onEnable_calls, enableCalls, containsModel]

theorem refresh_data (s : St) : (refreshProperties s).data = s.data := by
  rw [refresh_eq]
  by_cases he : s.enabled && s.entityEnabled <;> simp [he, onEnable_data]

theorem refresh_lightMask (s : St) :
    (refreshProperties s).lightMask = s.data.mask := by
  rw [refresh_eq]
  by_cases he : s.enabled && s.entityEnabled <;> simp [he, onEnable_lightMask]

theorem refresh_lightEnabled (s : St) :
    (refreshProperties s).lightEnabled =
      (if s.enabled && s.entityEnabled then true else s.lightEnabled) := by
  rw [refresh_eq]
  by_cases he : s.enabled && s.entityEnabled <;>
    simp [he, onEnable_lightEnabled]

theorem toU32_of_lt {m : Nat} (h : m < 2 ^ 32) : toU32 m = m :=
  Nat.mod_eq_of_lt h

theorem jsOr_lt (m M : Nat) : jsOr m M < 2 ^ 32 :=
  Nat.or_lt_two_pow (Nat.mod_lt _ (by norm_num)) (Nat.mod_lt _ (by norm_num))

theorem jsAndNot_lt (m M : Nat) : jsAndNot m M < 2 ^ 32 :=
  lt_of_le_of_lt Nat.and_le_left (Nat.mod_lt _ (by norm_num))

theorem jsOr_testBit (m M : Nat) (hm : m < 2 ^ 32) (hM : M < 2 ^ 32) (i : Nat) :
    (jsOr m M).testBit i = (m.testBit i || M.testBit i) := by
  unfold jsOr toU32
  rw [Nat.mod_eq_of_lt hm, Nat.mod_eq_of_lt hM, Nat.testBit_or]

theorem jsAndNot_testBit (m M : Nat) (hm : m < 2 ^ 32) (hM : M < 2 ^ 32)
    (i : Nat) : (jsAndNot m M).testBit i = (m.testBit i && !(M.testBit i)) := by
  unfold jsAndNot toU32
  rw [Nat.mod_eq_of_lt hm, Nat.mod_eq_of_lt hM, Nat.testBit_and,
    Nat.testBit_xor, Nat.testBit_two_pow_sub_one]
  by_cases hi : i < 32
  · simp [hi, Bool.xor_comm]
  · have hmb : m.testBit i = false :=
      Nat.testBit_lt_two_pow
        (lt_of_lt_of_le hm (Nat.pow_le_pow_right (by norm_num) (by omega)))
    simp [hi, hmb]



/-- A concrete directional-light state used by the witnesses. -/
def data0 : LightData :=
  { type := "directional", castShadows := false, color := 7, intensity := 1,
    shadowDistance := 40, shadowResolution := 1024, shadowBias := 0.05,
    normalOffsetBias := 0, range := 10, innerConeAngle := 40,
    outerConeAngle := 45, falloffMode := 0, shadowType := 0,
    shadowUpdateMode := 0, mask := 1, affectDynamic := false,
    affectLightmapped := false, bake := false, model := none }

/-- A concrete component state over `data0`. -/
def stDir : St :=
  { data := data0, lightMap := false, baked := false, enabled := true,
    entityEnabled := true, lightMask := 1, lightShadowUpdateMode := 0,
    lightEnabled := false, scene := [], calls := [] }

/-- `stDir` with a point light type. -/
def stPoint : St := { stDir with data := { data0 with type := "point" } }

/-- `stDir` with a spot light type. -/
def stSpot : St := { stDir with data := { data0 with type := "spot" } }

/-- Claim C1: a type-gated handler is a no-op when the current type does
not match, and forwards the new value unchanged to its setter when it
does (shadowDistance: directional; range, falloffMode: point or spot;
innerConeAngle, outerConeAngle: spot). -/
theorem typeGated_setters (s : St) (ov v : ℚ) (ovn vn : Nat) :
    (s.data.type ≠ "directional" → onSetShadowDistance s ov v = s) ∧
    (s.data.type = "directional" →
      onSetShadowDistance s ov v = emit s (.setShadowDistance v)) ∧
    (s.data.type ≠ "point" ∧ s.data.type ≠ "spot" →
      onSetRange s ov v = s ∧ onSetFalloffMode s ovn vn = s) ∧
    (s.data.type = "point" ∨ s.data.type = "spot" →
      onSetRange s ov v = emit s (.setAttenuationEnd v) ∧
      onSetFalloffMode s ovn vn = emit s (.setFalloffMode vn)) ∧
    (s.data.type ≠ "spot" →
      onSetInnerConeAngle s ov v = s ∧ onSetOuterConeAngle s ov v = s) ∧
    (s.data.type = "spot" →
      onSetInnerConeAngle s ov v = emit s (.setInnerConeAngle v) ∧
      onSetOuterConeAngle s ov v = emit s (.setOuterConeAngle v)) := by
  refine ⟨fun h => ?_, fun h => ?_, fun h => ?_, fun h => ?_, fun h => ?_,
    fun h => ?_⟩
  · simp [onSetShadowDistance, h]
  · simp [onSetShadowDistance, h]
  · exact ⟨by simp [onSetRange, h.1, h.2], by simp [onSetFalloffMode, h.1, h.2]⟩
  · rcases h with h | h <;>
      exact ⟨by simp [onSetRange, h], by simp [onSetFalloffMode, h]⟩
  · exact ⟨by simp [onSetInnerConeAngle, h], by simp [onSetOuterConeAngle, h]⟩
  · exact ⟨by simp [onSetInnerConeAngle, h], by simp [onSetOuterConeAngle, h]⟩

/-- Witness for C1 at concrete states. -/
theorem typeGated_setters_witness :
    onSetShadowDistance stSpot 0 5 = stSpot ∧
    onSetShadowDistance stDir 0 5 = emit stDir (.setShadowDistance 5) ∧
    onSetRange stDir 0 6 = stDir ∧
    onSetRange stPoint 0 6 = emit stPoint (.setAttenuationEnd 6) ∧
    onSetInnerConeAngle stPoint 0 7 = stPoint ∧
    onSetInnerConeAngle stSpot 0 7 = emit stSpot (.setInnerConeAngle 7) := by
  refine ⟨(typeGated_setters stSpot 0 5 0 0).1 (by decide),
    (typeGated_setters stDir 0 5 0 0).2.1 (by decide),
    ((typeGated_setters stDir 0 6 0 0).2.2.1 (by decide)).1,
    ((typeGated_setters stPoint 0 6 0 0).2.2.2.1 (Or.inl (by decide))).1,
    ((typeGated_setters stPoint 0 7 0 0).2.2.2.2.1 (by decide)).1,
    ((typeGated_setters stSpot 0 7 0 0).2.2.2.2.2 (by decide)).1⟩

/-- Claim C2: `onSetShadowBias` forwards exactly the input negated and
scaled by 0.01, i.e. the render light receives `-(v / 100)`. -/
theorem shadowBias_remap (s : St) (ov v : ℚ) :
    onSetShadowBias s ov v = emit s (.setShadowBias (-(v / 100))) := by
  unfold onSetShadowBias
  congr 1
  norm_num
  ring

theorem lightSetMask_lightMask (s : St) (v : Nat) :
    (lightSetMask s v).lightMask = v := rfl

theorem lightSetMask_calls (s : St) (v : Nat) :
    (lightSetMask s v).calls = s.calls ++ [Call.setMask v] := rfl

theorem affectLM_on (s : St) :
    onSetaffectLightmapped s false true =
      lightSetMask s
        (if s.lightMap then jsAndNot (jsOr s.lightMask MASK_BAKED) MASK_LIGHTMAP
         else jsOr s.lightMask MASK_BAKED) := by
  cases hlm : s.lightMap <;> simp [onSetaffectLightmapped, lightSetMask, hlm]

theorem testBit_two_of_ne (i : Nat) (hi : i ≠ 1) : (2 : Nat).testBit i = false := by
  have h2 : (2 : Nat) = 2 ^ 1 := by norm_num
  rw [h2, Nat.testBit_two_pow]
  simp only [decide_eq_false_iff_not]
  omega

theorem testBit_four_of_ne (i : Nat) (hi : i ≠ 2) : (4 : Nat).testBit i = false := by
  have h4 : (4 : Nat) = 2 ^ 2 := by norm_num
  rw [h4, Nat.testBit_two_pow]
  simp only [decide_eq_false_iff_not]
  omega

theorem affectLM_on_spec (s : St) (h32 : s.lightMask < 2 ^ 32) :
    (onSetaffectLightmapped s false true).lightMask.testBit 1 = true ∧
    (s.lightMap = true →
      (onSetaffectLightmapped s false true).lightMask.testBit 2 = false) ∧
    (s.lightMap = false →
      (onSetaffectLightmapped s false true).lightMask.testBit 2 =
        s.lightMask.testBit 2) ∧
    (∀ i, i ≠ 1 → i ≠ 2 →
      (onSetaffectLightmapped s false true).lightMask.testBit i =
        s.lightMask.testBit i) ∧
    (onSetaffectLightmapped s false true).calls =
      s.calls ++ [.setMask (onSetaffectLightmapped s false true).lightMask] := by
  have t21 : (2 : Nat).testBit 1 = true := by decide
  have t22 : (2 : Nat).testBit 2 = false := by decide
  have t42 : (4 : Nat).testBit 2 = true := by decide
  rw [affectLM_on, lightSetMask_lightMask, lightSetMask_calls]
  simp only [MASK_BAKED, MASK_LIGHTMAP]
  refine ⟨?_, ?_, ?_, ?_, trivial⟩
  · cases hlm : s.lightMap
    · rw [if_neg (by simp [hlm]), jsOr_testBit _ _ h32 (by norm_num)]
      simp [t21]
    · rw [if_pos (by simp [hlm]),
        jsAndNot_testBit _ _ (jsOr_lt _ _) (by norm_num),
        jsOr_testBit _ _ h32 (by norm_num)]
      simp [t21, testBit_four_of_ne 1 (by omega)]
  · intro hlm
    rw [if_pos (by simp [hlm]),
      jsAndNot_testBit _ _ (jsOr_lt _ _) (by norm_num)]
    simp [t42]
  · intro hlm
    rw [if_neg (by simp [hlm]), jsOr_testBit _ _ h32 (by norm_num)]
    simp [t22]
  · intro i hi1 hi2
    cases hlm : s.lightMap
    · rw [if_neg (by simp [hlm]), jsOr_testBit _ _ h32 (by norm_num)]
      simp [testBit_two_of_ne i hi1]
    · rw [if_pos (by simp [hlm]),
        jsAndNot_testBit _ _ (jsOr_lt _ _) (by norm_num),
        jsOr_testBit _ _ h32 (by norm_num)]
      simp [testBit_two_of_ne i hi1, testBit_four_of_ne i hi2]

theorem lightSetMask_lightMap (s : St) (v : Nat) :
    (lightSetMask s v).lightMap = s.lightMap := rfl

theorem affectLM_off (s : St) :
    onSetaffectLightmapped s true false =
      lightSetMask s
        (if s.lightMap then jsOr (jsAndNot s.lightMask MASK_BAKED) MASK_LIGHTMAP
         else jsAndNot s.lightMask MASK_BAKED) := by
  cases hlm : s.lightMap <;> simp [onSetaffectLightmapped, lightSetMask, hlm]

theorem bake_on (s : St) :
    onSetBake s false true =
      lightSetMask s
        (if s.baked then jsAndNot (jsOr s.lightMask MASK_LIGHTMAP) MASK_BAKED
         else jsOr s.lightMask MASK_LIGHTMAP) := by
  cases hb : s.baked <;> simp [onSetBake, lightSetMask, hb]

theorem bake_off (s : St) :
    onSetBake s true false =
      lightSetMask s
        (if s.baked then jsOr (jsAndNot s.lightMask MASK_LIGHTMAP) MASK_BAKED
         else jsAndNot s.lightMask MASK_LIGHTMAP) := by
  cases hb : s.baked <;> simp [onSetBake, lightSetMask, hb]

theorem affectLM_off_spec (s : St) (h32 : s.lightMask < 2 ^ 32) :
    (onSetaffectLightmapped s true false).lightMask.testBit 1 = false ∧
    (s.lightMap = true →
      (onSetaffectLightmapped s true false).lightMask.testBit 2 = true) ∧
    (s.lightMap = false →
      (onSetaffectLightmapped s true false).lightMask.testBit 2 =
        s.lightMask.testBit 2) ∧
    (∀ i, i ≠ 1 → i ≠ 2 →
      (onSetaffectLightmapped s true false).lightMask.testBit i =
        s.lightMask.testBit i) ∧
    (onSetaffectLightmapped s true false).calls =
      s.calls ++ [.setMask (onSetaffectLightmapped s true false).lightMask] := by
  have t21 : (2 : Nat).testBit 1 = true := by decide
  have t22 : (2 : Nat).testBit 2 = false := by decide
  have t42 : (4 : Nat).testBit 2 = true := by decide
  rw [affectLM_off, lightSetMask_lightMask, lightSetMask_calls]
  simp only [MASK_BAKED, MASK_LIGHTMAP]
  refine ⟨?_, ?_, ?_, ?_, trivial⟩
  · cases hlm : s.lightMap
    · rw [if_neg (by simp [hlm]), jsAndNot_testBit _ _ h32 (by norm_num)]
      simp [t21]
    · rw [if_pos (by simp [hlm]),
        jsOr_testBit _ _ (jsAndNot_lt _ _) (by norm_num),
        jsAndNot_testBit _ _ h32 (by norm_num)]
      simp [t21, testBit_four_of_ne 1 (by omega)]
  · intro hlm
    rw [if_pos (by simp [hlm]),
      jsOr_testBit _ _ (jsAndNot_lt _ _) (by norm_num)]
    simp [t42]
  · intro hlm
    rw [if_neg (by simp [hlm]), jsAndNot_testBit _ _ h32 (by norm_num)]
    simp [t22]
  · intro i hi1 hi2
    cases hlm : s.lightMap
    · rw [if_neg (by simp [hlm]), jsAndNot_testBit _ _ h32 (by norm_num)]
      simp [testBit_two_of_ne i hi1]
    · rw [if_pos (by simp [hlm]),
        jsOr_testBit _ _ (jsAndNot_lt _ _) (by norm_num),
        jsAndNot_testBit _ _ h32 (by norm_num)]
      simp [testBit_two_of_ne i hi1, testBit_four_of_ne i hi2]

theorem bake_on_spec (s : St) (h32 : s.lightMask < 2 ^ 32) :
    (onSetBake s false true).lightMask.testBit 2 = true ∧
    (s.baked = true → (onSetBake s false true).lightMask.testBit 1 = false) ∧
    (s.baked = false →
      (onSetBake s false true).lightMask.testBit 1 = s.lightMask.testBit 1) ∧
    (∀ i, i ≠ 1 → i ≠ 2 →
      (onSetBake s false true).lightMask.testBit i = s.lightMask.testBit i) ∧
    (onSetBake s false true).calls =
      s.calls ++ [.setMask (onSetBake s false true).lightMask] := by
  have t21 : (2 : Nat).testBit 1 = true := by decide
  have t41 : (4 : Nat).testBit 1 = false := by decide
  have t42 : (4 : Nat).testBit 2 = true := by decide
  rw [bake_on, lightSetMask_lightMask, lightSetMask_calls]
  simp only [MASK_BAKED, MASK_LIGHTMAP]
  refine ⟨?_, ?_, ?_, ?_, trivial⟩
  · cases hb : s.baked
    · rw [if_neg (by simp [hb]), jsOr_testBit _ _ h32 (by norm_num)]
      simp [t42]
    · rw [if_pos (by simp [hb]),
        jsAndNot_testBit _ _ (jsOr_lt _ _) (by norm_num),
        jsOr_testBit _ _ h32 (by norm_num)]
      simp [t42, testBit_two_of_ne 2 (by omega)]
  · intro hb
    rw [if_pos (by simp [hb]),
      jsAndNot_testBit _ _ (jsOr_lt _ _) (by norm_num)]
    simp [t21]
  · intro hb
    rw [if_neg (by simp [hb]), jsOr_testBit _ _ h32 (by norm_num)]
    simp [t41]
  · intro i hi1 hi2
    cases hb : s.baked
    · rw [if_neg (by simp [hb]), jsOr_testBit _ _ h32 (by norm_num)]
      simp [testBit_four_of_ne i hi2]
    · rw [if_pos (by simp [hb]),
        jsAndNot_testBit _ _ (jsOr_lt _ _) (by norm_num),
        jsOr_testBit _ _ h32 (by norm_num)]
      simp [testBit_two_of_ne i hi1, testBit_four_of_ne i hi2]

theorem bake_off_spec (s : St) (h32 : s.lightMask < 2 ^ 32) :
    (onSetBake s true false).lightMask.testBit 2 = false ∧
    (s.baked = true → (onSetBake s true false).lightMask.testBit 1 = true) ∧
    (s.baked = false →
      (onSetBake s true false).lightMask.testBit 1 = s.lightMask.testBit 1) ∧
    (∀ i, i ≠ 1 → i ≠ 2 →
      (onSetBake s true false).lightMask.testBit i = s.lightMask.testBit i) ∧
    (onSetBake s true false).calls =
      s.calls ++ [.setMask (onSetBake s true false).lightMask] := by
  have t21 : (2 : Nat).testBit 1 = true := by decide
  have t22 : (2 : Nat).testBit 2 = false := by decide
  have t41 : (4 : Nat).testBit 1 = false := by decide
  have t42 : (4 : Nat).testBit 2 = true := by decide
  rw [bake_off, lightSetMask_lightMask, lightSetMask_calls]
  simp only [MASK_BAKED, MASK_LIGHTMAP]
  refine ⟨?_, ?_, ?_, ?_, trivial⟩
  · cases hb : s.baked
    · rw [if_neg (by simp [hb]), jsAndNot_testBit _ _ h32 (by norm_num)]
      simp [t42]
    · rw [if_pos (by simp [hb]),
        jsOr_testBit _ _ (jsAndNot_lt _ _) (by norm_num),
        jsAndNot_testBit _ _ h32 (by norm_num)]
      simp [t22, t42]
  · intro hb
    rw [if_pos (by simp [hb]),
      jsOr_testBit _ _ (jsAndNot_lt _ _) (by norm_num)]
    simp [t21]
  · intro hb
    rw [if_neg (by simp [hb]), jsAndNot_testBit _ _ h32 (by norm_num)]
    simp [t41]
  · intro i hi1 hi2
    cases hb : s.baked
    · rw [if_neg (by simp [hb]), jsAndNot_testBit _ _ h32 (by norm_num)]
      simp [testBit_four_of_ne i hi2]
    · rw [if_pos (by simp [hb]),
        jsOr_testBit _ _ (jsAndNot_lt _ _) (by norm_num),
        jsAndNot_testBit _ _ h32 (by norm_num)]
      simp [testBit_two_of_ne i hi1, testBit_four_of_ne i hi2]

/-- `stDir` with the lightMap and baked flags set and a mask with
several bits. -/
def stFlags : St := { stDir with lightMap := true, baked := true, lightMask := 5 }

/-- Claim C3: from any prior render-light mask (as a 32-bit pattern),
toggling affectLightmapped on sets the MASK_BAKED bit and clears the
MASK_LIGHTMAP bit exactly when the lightMap flag is set; toggling it
off is the mirror; toggling bake on sets the MASK_LIGHTMAP bit and
clears the MASK_BAKED bit exactly when the baked flag is set; off is
the mirror.  In every case all other mask bits are unchanged and the
resulting mask is pushed via `setMask`. -/
theorem maskToggle_bit_edits (s : St) (h32 : s.lightMask < 2 ^ 32) :
    ((onSetaffectLightmapped s false true).lightMask.testBit 1 = true ∧
     (s.lightMap = true →
       (onSetaffectLightmapped s false true).lightMask.testBit 2 = false) ∧
     (s.lightMap = false →
       (onSetaffectLightmapped s false true).lightMask.testBit 2 =
         s.lightMask.testBit 2) ∧
     (∀ i, i ≠ 1 → i ≠ 2 →
       (onSetaffectLightmapped s false true).lightMask.testBit i =
         s.lightMask.testBit i) ∧
     (onSetaffectLightmapped s false true).calls =
       s.calls ++ [.setMask (onSetaffectLightmapped s false true).lightMask]) ∧
    ((onSetaffectLightmapped s true false).lightMask.testBit 1 = false ∧
     (s.lightMap = true →
       (onSetaffectLightmapped s true false).lightMask.testBit 2 = true) ∧
     (s.lightMap = false →
       (onSetaffectLightmapped s true false).lightMask.testBit 2 =
         s.lightMask.testBit 2) ∧
     (∀ i, i ≠ 1 → i ≠ 2 →
       (onSetaffectLightmapped s true false).lightMask.testBit i =
         s.lightMask.testBit i) ∧
     (onSetaffectLightmapped s true false).calls =
       s.calls ++ [.setMask (onSetaffectLightmapped s true false).lightMask]) ∧
    ((onSetBake s false true).lightMask.testBit 2 = true ∧
     (s.baked = true → (onSetBake s false true).lightMask.testBit 1 = false) ∧
     (s.baked = false →
       (onSetBake s false true).lightMask.testBit 1 = s.lightMask.testBit 1) ∧
     (∀ i, i ≠ 1 → i ≠ 2 →
       (onSetBake s false true).lightMask.testBit i = s.lightMask.testBit i) ∧
     (onSetBake s false true).calls =
       s.calls ++ [.setMask (onSetBake s false true).lightMask]) ∧
    ((onSetBake s true false).lightMask.testBit 2 = false ∧
     (s.baked = true → (onSetBake s true false).lightMask.testBit 1 = true) ∧
     (s.baked = false →
       (onSetBake s true false).lightMask.testBit 1 = s.lightMask.testBit 1) ∧
     (∀ i, i ≠ 1 → i ≠ 2 →
       (onSetBake s true false).lightMask.testBit i = s.lightMask.testBit i) ∧
     (onSetBake s true false).calls =
       s.calls ++ [.setMask (onSetBake s true false).lightMask]) :=
  ⟨affectLM_on_spec s h32, affectLM_off_spec s h32,
   bake_on_spec s h32, bake_off_spec s h32⟩

/-- Witness for C3 at a concrete state. -/
theorem maskToggle_bit_edits_witness :
    (onSetaffectLightmapped stFlags false true).lightMask.testBit 1 = true ∧
    (onSetaffectLightmapped stFlags false true).lightMask.testBit 2 = false ∧
    (onSetBake stFlags false true).lightMask.testBit 2 = true := by
  refine ⟨(maskToggle_bit_edits stFlags (by decide)).1.1,
    (maskToggle_bit_edits stFlags (by decide)).1.2.1 (by decide),
    (maskToggle_bit_edits stFlags (by decide)).2.2.1.1⟩

/-- Claim C4: with lightMap and baked both set, enabling bake and then
enabling affectLightmapped leaves the render-light mask with the
MASK_LIGHTMAP bit cleared and the MASK_BAKED bit set. -/
theorem bake_then_affectLightmapped (s : St)
    (hlm : s.lightMap = true) (hb : s.baked = true) :
    (onSetaffectLightmapped (onSetBake s false true) false true).lightMask.testBit 2
        = false ∧
    (onSetaffectLightmapped (onSetBake s false true) false true).lightMask.testBit 1
        = true := by
  have hpm : (onSetBake s false true).lightMap = s.lightMap := by
    rw [bake_on]; rfl
  have hlt : (onSetBake s false true).lightMask < 2 ^ 32 := by
    rw [bake_on, lightSetMask_lightMask, if_pos hb]
    exact jsAndNot_lt _ _
  rw [affectLM_on, lightSetMask_lightMask, if_pos (hpm.trans hlm)]
  simp only [MASK_BAKED, MASK_LIGHTMAP]
  constructor
  · rw [jsAndNot_testBit _ _ (jsOr_lt _ _) (by norm_num)]
    simp [show (4 : Nat).testBit 2 = true from by decide]
  · rw [jsAndNot_testBit _ _ (jsOr_lt _ _) (by norm_num),
      jsOr_testBit _ _ hlt (by norm_num)]
    simp [show (2 : Nat).testBit 1 = true from by decide,
      testBit_four_of_ne 1 (by omega)]

/-- Witness for C4 at a concrete state. -/
theorem bake_then_affectLightmapped_witness :
    (onSetaffectLightmapped (onSetBake stFlags false true) false true).lightMask.testBit 2
        = false ∧
    (onSetaffectLightmapped (onSetBake stFlags false true) false true).lightMask.testBit 1
        = true :=
  bake_then_affectLightmapped stFlags (by decide) (by decide)

/-- `stDir` owning a render model (handle 3) not yet in the scene. -/
def stModel : St := { stDir with data := { data0 with model := some 3 } }

/-- Claim C5: calling onEnable twice in a row adds the owned model to
the scene at most once: the second call finds the model contained and
changes neither the scene nor adds a second addModel call; onEnable
marks the render light enabled. -/
theorem onEnable_twice (s : St) (m : Nat) (h : s.data.model = some m) :
    (onEnable (onEnable s)).scene = (onEnable s).scene ∧
    (onEnable (onEnable s)).calls = (onEnable s).calls ++ [Call.setEnabled true] ∧
    (onEnable s).lightEnabled = true ∧
    (onEnable s).scene.count m ≤ s.scene.count m + 1 := by
  have hd : (onEnable s).data = s.data := onEnable_data s
  have hmem : m ∈ (onEnable s).scene := by
    rw [onEnable_scene, h]
    by_cases hc : containsModel s.scene m
    · have hms : m ∈ s.scene := by simpa [containsModel] using hc
      simp [hc, hms]
    · simp [hc]
  have hcont : containsModel (onEnable s).scene m = true := by
    simp [containsModel, hmem]
  refine ⟨?_, ?_, onEnable_lightEnabled s, ?_⟩
  · rw [onEnable_scene (onEnable s)]
    simp [hd, h, hcont]
  · rw [onEnable_calls (onEnable s)]
    simp [enableCalls, hd, h, hcont]
  · rw [onEnable_scene, h]
    by_cases hc : containsModel s.scene m <;> simp [hc]

/-- Witness for C5 at a concrete state. -/
theorem onEnable_twice_witness :
    (onEnable (onEnable stModel)).scene = (onEnable stModel).scene ∧
    (onEnable (onEnable stModel)).calls =
      (onEnable stModel).calls ++ [Call.setEnabled true] ∧
    (onEnable stModel).lightEnabled = true ∧
    (onEnable stModel).scene.count 3 ≤ stModel.scene.count 3 + 1 :=
  onEnable_twice stModel 3 (by decide)

/-- `stDir` owning a render model (handle 1) that is not in the scene. -/
def stModelAbsent : St := { stDir with data := { data0 with model := some 1 } }

/-- Claim C6 counterexample: when the component owns a model that is
not in the scene's model list, onDisable still calls the scene's
removeModel — there is no explicit absence guard in the component. -/
theorem onDisable_unguarded_cex :
    stModelAbsent.data.model = some 1 ∧
    containsModel stModelAbsent.scene 1 = false ∧
    Call.removeModel 1 ∈ (onDisable stModelAbsent).calls := by decide

/-- Claim C6 amended: onDisable marks the render light inactive; with
no model it makes no scene call; with a model it calls the scene's
removeModel unconditionally (no containment check in the component),
which removes the model if present and leaves the scene unchanged if
absent. -/
theorem onDisable_behavior (s : St) :
    (onDisable s).lightEnabled = false ∧
    (s.data.model = none →
      onDisable s = emit { s with lightEnabled := false } (.setEnabled false)) ∧
    (∀ m, s.data.model = some m →
      (onDisable s).calls = s.calls ++ [.setEnabled false, .removeModel m] ∧
      (onDisable s).scene = s.scene.erase m ∧
      (m ∉ s.scene → (onDisable s).scene = s.scene)) := by
  refine ⟨?_, fun hm => ?_, fun m hm => ⟨?_, ?_, fun hnm => ?_⟩⟩
  · unfold onDisable
    cases hm : s.data.model
    case none => simp [emit, hm]
    case some m => simp [emit, hm]
  · unfold onDisable
    simp [emit, hm]
  · unfold onDisable
    simp [emit, hm]
  · unfold onDisable
    simp [emit, hm]
  · unfold onDisable
    simp [emit, hm, List.erase_of_not_mem hnm]

/-- Witness for C6 at concrete states. -/
theorem onDisable_behavior_witness :
    (onDisable stModelAbsent).calls =
      [Call.setEnabled false, Call.removeModel 1] ∧
    (onDisable stModelAbsent).scene = [] ∧
    onDisable stDir = emit { stDir with lightEnabled := false }
      (.setEnabled false) := by
  refine ⟨?_, ?_, (onDisable_behavior stDir).2.1 (by decide)⟩
  · have h := ((onDisable_behavior stModelAbsent).2.2 1 (by decide)).1
    simpa using h
  · have h := ((onDisable_behavior stModelAbsent).2.2 1 (by decide)).2.2 (by decide)
    simpa using h

theorem emit_enabled (s : St) (c : Call) : (emit s c).enabled = s.enabled := rfl

theorem emit_entityEnabled (s : St) (c : Call) :
    (emit s c).entityEnabled = s.entityEnabled := rfl

theorem refreshCallList_emit (s : St) (c : Call) :
    refreshCallList (emit s c) = refreshCallList s := rfl

theorem enableCalls_emit (s : St) (c : Call) :
    enableCalls (emit s c) = enableCalls s := rfl

/-- Claim C7: onSetType does nothing when the old and new type are
equal; when they differ it first calls the system changeType and then
performs the full property refresh (whose calls follow in the trace). -/
theorem onSetType_order (s : St) (ov nv : String) :
    (ov = nv → onSetType s ov nv = s) ∧
    (ov ≠ nv →
      (onSetType s ov nv).calls =
        s.calls ++ Call.changeType ov nv ::
          (refreshCallList s ++
            (if s.enabled && s.entityEnabled then enableCalls s else []))) := by
  constructor
  · intro h
    simp [onSetType, h]
  · intro h
    unfold onSetType
    rw [if_neg h, refresh_calls, refreshCallList_emit, enableCalls_emit,
      emit_enabled, emit_entityEnabled]
    simp [emit]

/-- Witness for C7 at concrete states. -/
theorem onSetType_order_witness :
    onSetType stDir "directional" "directional" = stDir ∧
    (onSetType stSpot "point" "spot").calls =
      stSpot.calls ++ Call.changeType "point" "spot" ::
        (refreshCallList stSpot ++
          (if stSpot.enabled && stSpot.entityEnabled then enableCalls stSpot
           else [])) :=
  ⟨(onSetType_order stDir "directional" "directional").1 rfl,
   (onSetType_order stSpot "point" "spot").2 (by decide)⟩

/-- Claim C8: refreshProperties re-invokes every per-property handler
once with old = new = the stored value — the resulting collaborator
calls are exactly `refreshCallList` — leaves the stored data unchanged,
and triggers the enable path exactly when both the component and its
owning entity are enabled. -/
theorem refreshProperties_reapplies (s : St) :
    (refreshProperties s).calls =
      s.calls ++ refreshCallList s ++
        (if s.enabled && s.entityEnabled then enableCalls s else []) ∧
    (refreshProperties s).data = s.data ∧
    (refreshProperties s).lightEnabled =
      (if s.enabled && s.entityEnabled then true else s.lightEnabled) :=
  ⟨refresh_calls s, refresh_data s, refresh_lightEnabled s⟩

/-- Claim C9: after a type change from point to spot, the refresh
forwards range (via setAttenuationEnd), falloffMode, innerConeAngle and
outerConeAngle to the render light exactly once each, with the stored
component values. -/
theorem point_to_spot_refresh (s : St) (hs : s.data.type = "spot")
    (h0 : s.calls = []) :
    (onSetType s "point" "spot").calls.count
        (Call.setAttenuationEnd s.data.range) = 1 ∧
    (onSetType s "point" "spot").calls.count
        (Call.setFalloffMode s.data.falloffMode) = 1 ∧
    (onSetType s "point" "spot").calls.count
        (Call.setInnerConeAngle s.data.innerConeAngle) = 1 ∧
    (onSetType s "point" "spot").calls.count
        (Call.setOuterConeAngle s.data.outerConeAngle) = 1 := by
  have h := (onSetType_order s "point" "spot").2 (by decide)
  rw [h, h0]
  have hlist : refreshCallList s =
      [.setCastShadows s.data.castShadows, .setColor s.data.color,
       .setIntensity s.data.intensity, .setShadowResolution s.data.shadowResolution,
       .setShadowBias (-0.01 * s.data.shadowBias),
       .setNormalOffsetBias s.data.normalOffsetBias,
       .setAttenuationEnd s.data.range, .setInnerConeAngle s.data.innerConeAngle,
       .setOuterConeAngle s.data.outerConeAngle,
       .setFalloffMode s.data.falloffMode, .setShadowType s.data.shadowType,
       .setMask s.data.mask, .setMask s.data.mask, .setMask s.data.mask,
       .setMask s.data.mask] := by
    simp [refreshCallList, hs]
  rw [hlist]
  set E := (if s.enabled && s.entityEnabled then enableCalls s else []) with hE
  have ecount : ∀ c : Call, (∀ b, c ≠ Call.setEnabled b) →
      (∀ m, c ≠ Call.addModel m) → E.count c = 0 := by
    intro c hcb hcm
    rw [hE]
    by_cases he : s.enabled && s.entityEnabled
    · rw [if_pos he]
      unfold enableCalls
      rcases hm : s.data.model with _ | m
      · simp [hcb]
      · by_cases hc : containsModel s.scene m <;> simp [hc, hcb, hcm]
    · rw [if_neg he]
      rfl
  have e1 : E.count (Call.setAttenuationEnd s.data.range) = 0 :=
    ecount _ (by intro b h; cases h) (by intro m h; cases h)
  have e2 : E.count (Call.setFalloffMode s.data.falloffMode) = 0 :=
    ecount _ (by intro b h; cases h) (by intro m h; cases h)
  have e3 : E.count (Call.setInnerConeAngle s.data.innerConeAngle) = 0 :=
    ecount _ (by intro b h; cases h) (by intro m h; cases h)
  have e4 : E.count (Call.setOuterConeAngle s.data.outerConeAngle) = 0 :=
    ecount _ (by intro b h; cases h) (by intro m h; cases h)
  refine ⟨?_, ?_, ?_, ?_⟩ <;>
    simp [List.count_append, List.count_cons, e1, e2, e3, e4]

/-- Witness for C9 at a concrete state. -/
theorem point_to_spot_refresh_witness :
    (onSetType stSpot "point" "spot").calls.count
        (Call.setAttenuationEnd stSpot.data.range) = 1 ∧
    (onSetType stSpot "point" "spot").calls.count
        (Call.setFalloffMode stSpot.data.falloffMode) = 1 ∧
    (onSetType stSpot "point" "spot").calls.count
        (Call.setInnerConeAngle stSpot.data.innerConeAngle) = 1 ∧
    (onSetType stSpot "point" "spot").calls.count
        (Call.setOuterConeAngle stSpot.data.outerConeAngle) = 1 :=
  point_to_spot_refresh stSpot rfl rfl

/-- `stDir` with a render-light mask differing from the stored mask
property. -/
def stMaskDiff : St := { stDir with lightMask := 3 }

/-- Claim C10 counterexample: refreshProperties does not in general
preserve the render light's mask even though the stored mask property
is unchanged: the re-invoked onSetMask pushes the stored mask value,
overwriting a differing light mask. -/
theorem refresh_mask_not_preserved_cex :
    stMaskDiff.lightMask = 3 ∧ stMaskDiff.data.mask = 1 ∧
    ¬ ((refreshProperties stMaskDiff).lightMask = stMaskDiff.lightMask) := by
  decide

/-- Claim C10 amended: refreshProperties always leaves the render
light's mask equal to the stored mask property (the toggle handlers
take neither branch when old = new), so it preserves the pre-refresh
light mask exactly when that already equals the stored mask. -/
theorem refresh_mask (s : St) :
    (refreshProperties s).lightMask = s.data.mask ∧
    ((refreshProperties s).lightMask = s.lightMask ↔
      s.data.mask = s.lightMask) := by
  have h := refresh_lightMask s
  exact ⟨h, by rw [h]⟩

end Engine
